import Mathlib

/-!
Shallow embedding of the Urbanite parking-assist controller
(src/common/src/fsm_ultrasound.c, src/unnamed/part_000 = fsm_display.c,
src/unnamed/part_001 = fsm_urbanite.c + fsm_button.c, src/unnamed/part_002 =
fsm_buzzer.c, together with the constants of the headers in
src/unnamed/part_003, src/unnamed/part_004 and src/common/include/fsm_button.h).

Machine integers are embedded as `Nat`/`Int`, with an explicit `% 4294967296`
(2^32) where the C code relies on `uint32_t` wraparound and `% 256` where an
`int` value is converted to `uint8_t`.  Hardware (`port_*`) calls whose only
effect is on peripheral registers are outside the embedded state; `port_*`
flags that the FSM guards read back are carried in explicit port-state
records.
-/

namespace Urbanite

/-- Modelled from the spec: the generic FSM engine (`fsm.c`/`fsm.h` are not
under `src/`; spec section 4.1).  A transition row is
(source state, guard predicate, destination state, action procedure). -/
structure fsm_trans_row (σ : Type) where
  orig_state : Int
  guard_fn : σ → Bool
  dest_state : Int
  action_fn : σ → σ

/-- Modelled from the spec: `fsm_fire` of the generic engine (`fsm.c` is not
under `src/`; spec section 4.1): scan the table in order for the first row
whose source state equals the current state and whose guard evaluates true;
execute its action, then move to the destination state.  If no row matches,
nothing changes. -/
def fsm_fire {σ : Type} (get_state : σ → Int) (set_state : Int → σ → σ) :
    List (fsm_trans_row σ) → σ → σ
  | [], s => s
  | r :: rest, s =>
    if r.orig_state = get_state s ∧ r.guard_fn s = true then
      set_state r.dest_state (r.action_fn s)
    else
      fsm_fire get_state set_state rest s

/-! ## Button FSM (fsm_button.c in src/unnamed/part_001, enum in
src/common/include/fsm_button.h) -/

/-- `enum FSM_BUTTON`: `BUTTON_RELEASED = 0`. -/
def BUTTON_RELEASED : Int := 0
/-- `enum FSM_BUTTON`: `BUTTON_RELEASED_WAIT = 1`. -/
def BUTTON_RELEASED_WAIT : Int := 1
/-- `enum FSM_BUTTON`: `BUTTON_PRESSED = 2`. -/
def BUTTON_PRESSED : Int := 2
/-- `enum FSM_BUTTON`: `BUTTON_PRESSED_WAIT = 3`. -/
def BUTTON_PRESSED_WAIT : Int := 3

/-- `struct fsm_button_t` (the embedded generic `fsm_t` contributes
`current_state`; `button_id` selects hardware and is dropped, the hardware
inputs being carried in `button_port_t`). -/
structure fsm_button_t where
  current_state : Int
  debounce_time_ms : Nat
  next_timeout : Nat
  tick_pressed : Nat
  duration : Nat
  deriving DecidableEq

/-- Hardware-boundary inputs read by the button FSM guards:
`port_button_get_pressed` and `port_system_get_millis`. -/
structure button_port_t where
  pressed : Bool
  millis : Nat
  deriving DecidableEq

namespace fsm_button

/-- `check_button_pressed`: `port_button_get_pressed(button_id)`. -/
def check_button_pressed (p : fsm_button_t × button_port_t) : Bool :=
  p.2.pressed

/-- `check_button_released`: `!port_button_get_pressed(button_id)`. -/
def check_button_released (p : fsm_button_t × button_port_t) : Bool :=
  !p.2.pressed

/-- `check_timeout`: `port_system_get_millis() > next_timeout`. -/
def check_timeout (p : fsm_button_t × button_port_t) : Bool :=
  decide (p.1.next_timeout < p.2.millis)

/-- `do_store_tick_pressed`: record the press tick and arm the debounce
timeout. -/
def do_store_tick_pressed (p : fsm_button_t × button_port_t) :
    fsm_button_t × button_port_t :=
  let tiempo := p.2.millis
  ({ p.1 with tick_pressed := tiempo,
              next_timeout := tiempo + p.1.debounce_time_ms }, p.2)

/-- `do_set_duration`: `duration = millis - tick_pressed` (uint32 wraparound
subtraction) and re-arm the debounce timeout. -/
def do_set_duration (p : fsm_button_t × button_port_t) :
    fsm_button_t × button_port_t :=
  let tiempo := p.2.millis
  ({ p.1 with
      duration := (tiempo + (4294967296 - p.1.tick_pressed % 4294967296)) %
        4294967296,
      next_timeout := tiempo + p.1.debounce_time_ms }, p.2)

end fsm_button

open fsm_button in
/-- `fsm_trans_button` (the terminating `{-1, NULL, -1, NULL}` sentinel is the
end of the list). -/
def fsm_trans_button : List (fsm_trans_row (fsm_button_t × button_port_t)) :=
  [⟨BUTTON_RELEASED, check_button_pressed, BUTTON_PRESSED_WAIT, do_store_tick_pressed⟩,
   ⟨BUTTON_PRESSED_WAIT, check_timeout, BUTTON_PRESSED, fun p => p⟩,
   ⟨BUTTON_PRESSED, check_button_released, BUTTON_RELEASED_WAIT, do_set_duration⟩,
   ⟨BUTTON_RELEASED_WAIT, check_timeout, BUTTON_RELEASED, fun p => p⟩]

/-- `fsm_button_fire`: one fire of the button FSM against the current hardware
inputs. -/
def fsm_button_fire (b : fsm_button_t) (port : button_port_t) : fsm_button_t :=
  (fsm_fire (fun p => p.1.current_state)
    (fun n p => ({ p.1 with current_state := n }, p.2)) fsm_trans_button
    (b, port)).1

/-- `fsm_button_get_duration`. -/
def fsm_button_get_duration (b : fsm_button_t) : Nat :=
  b.duration

/-- `fsm_button_reset_duration`. -/
def fsm_button_reset_duration (b : fsm_button_t) : fsm_button_t :=
  { b with duration := 0 }

/-- `fsm_button_check_activity`: `current_state != 0`. -/
def fsm_button_check_activity (b : fsm_button_t) : Bool :=
  b.current_state != 0

/-! ## Ultrasound FSM (src/common/src/fsm_ultrasound.c; its header
`fsm_ultrasound.h` with the state enum and the constants
`FSM_ULTRASOUND_NUM_MEASUREMENTS` and `SPEED_OF_SOUND_MS` is not under
`src/`) -/

/-- Modelled from the spec: `enum FSM_ULTRASOUND` of the missing
`fsm_ultrasound.h`, in the state order of spec section 4.3: `WAIT_START = 0`. -/
def WAIT_START : Int := 0
/-- Modelled from the spec: `TRIGGER_START = 1` (see `WAIT_START`). -/
def TRIGGER_START : Int := 1
/-- Modelled from the spec: `WAIT_ECHO_START = 2` (see `WAIT_START`). -/
def WAIT_ECHO_START : Int := 2
/-- Modelled from the spec: `WAIT_ECHO_END = 3` (see `WAIT_START`). -/
def WAIT_ECHO_END : Int := 3
/-- Modelled from the spec: `SET_DISTANCE = 4` (see `WAIT_START`). -/
def SET_DISTANCE : Int := 4

/-- Modelled from the spec: `SPEED_OF_SOUND_MS` of the missing
`fsm_ultrasound.h`; the spec fixes the speed of sound at 343 m/s (20 °C),
matching `time * SPEED_OF_SOUND_MS / 20000` converting microseconds to
centimeters (~58.3 µs per cm round-trip). -/
def SPEED_OF_SOUND_MS : Nat := 343

/-- `struct fsm_ultrasound_t` (the embedded `fsm_t` contributes
`current_state`; `ultrasound_id` selects hardware and is dropped, the
hardware flags being carried in `ultrasound_port_t`).  The C sample buffer
`uint32_t distance_arr[FSM_ULTRASOUND_NUM_MEASUREMENTS]` is a list whose
length is the window size; the window size itself is a parameter `NUM` of the
operations, since `fsm_ultrasound.h` (which fixes it) is not under `src/`. -/
structure fsm_ultrasound_t where
  current_state : Int
  distance_cm : Nat
  status : Bool
  new_measurement : Bool
  distance_arr : List Nat
  distance_idx : Nat
  deriving DecidableEq

/-- Hardware-boundary flags and capture registers read (and in part written)
by the ultrasound FSM: `port_ultrasound_get_trigger_ready`,
`port_ultrasound_get_trigger_end`, `port_ultrasound_get_echo_init_tick`,
`port_ultrasound_get_echo_end_tick`, `port_ultrasound_get_echo_received`,
`port_ultrasound_get_echo_overflows`. -/
structure ultrasound_port_t where
  trigger_ready : Bool
  trigger_end : Bool
  echo_init_tick : Nat
  echo_end_tick : Nat
  echo_received : Bool
  echo_overflows : Nat
  deriving DecidableEq

/-- The sample computed by `do_set_distance` from the echo capture registers:
`time = echo_end_tick + echo_overflows * 65536 - echo_init_tick` (uint32
arithmetic) and `distance = time * SPEED_OF_SOUND_MS / 20000` (uint32
multiply, then integer division). -/
def sample_of_port (port : ultrasound_port_t) : Nat :=
  let time := ((port.echo_end_tick + port.echo_overflows * 65536) +
    (4294967296 - port.echo_init_tick % 4294967296)) % 4294967296
  time * SPEED_OF_SOUND_MS % 4294967296 / 20000

/-- The in-place ascending `qsort(distance_arr, NUM, sizeof(uint32_t),
_compare)` of `do_set_distance`, as an insertion sort.  `_compare` subtracts
two `uint32_t` samples and returns the difference as `int`; every sample is
`≤ 4294967295 / 20000 < 2^31`, so the comparator orders the samples
ascending and the sorted array is the unique ascending permutation that
`qsort` also produces. -/
def qsort_insert (x : Nat) : List Nat → List Nat
  | [] => [x]
  | y :: ys => if x ≤ y then x :: y :: ys else y :: qsort_insert x ys

/-- See `qsort_insert`. -/
def qsort_distances (l : List Nat) : List Nat :=
  l.foldr qsort_insert []

namespace fsm_ultrasound

/-- `check_on` (ultrasound): trigger ready and enabled. -/
def check_on (p : fsm_ultrasound_t × ultrasound_port_t) : Bool :=
  p.2.trigger_ready && p.1.status

/-- `check_off` (ultrasound): disabled. -/
def check_off (p : fsm_ultrasound_t × ultrasound_port_t) : Bool :=
  !p.1.status

/-- `check_trigger_end`. -/
def check_trigger_end (p : fsm_ultrasound_t × ultrasound_port_t) : Bool :=
  p.2.trigger_end

/-- `check_echo_init`: `port_ultrasound_get_echo_init_tick(id) > 0`. -/
def check_echo_init (p : fsm_ultrasound_t × ultrasound_port_t) : Bool :=
  if p.2.echo_init_tick > 0 then true else false

/-- `check_echo_received`. -/
def check_echo_received (p : fsm_ultrasound_t × ultrasound_port_t) : Bool :=
  p.2.echo_received

/-- `check_new_measurement`: `port_ultrasound_get_trigger_ready(id)`. -/
def check_new_measurement (p : fsm_ultrasound_t × ultrasound_port_t) : Bool :=
  p.2.trigger_ready

/-- `do_start_measurement`: `port_ultrasound_start_measurement(id)` acts on
the trigger/echo timers at the hardware boundary only. -/
def do_start_measurement (p : fsm_ultrasound_t × ultrasound_port_t) :
    fsm_ultrasound_t × ultrasound_port_t :=
  p

/-- `do_stop_trigger`: `port_ultrasound_stop_trigger_timer` acts at the
hardware boundary; `port_ultrasound_set_trigger_end(id, false)` clears the
`trigger_end` flag the guards read. -/
def do_stop_trigger (p : fsm_ultrasound_t × ultrasound_port_t) :
    fsm_ultrasound_t × ultrasound_port_t :=
  (p.1, { p.2 with trigger_end := false })

/-- `do_set_distance` (parametrized by the window size `NUM`, see
`fsm_ultrasound_t`): store the computed sample at `distance_idx`; once the
index reaches the last slot, sort the window in place, publish the middle
element as `distance_cm` and raise `new_measurement`; advance the index,
wrapping to 0; finally `port_ultrasound_stop_echo_timer` (hardware boundary)
and `port_ultrasound_reset_echo_ticks`, which (modelled from the spec's port
contract) clears the echo capture registers. -/
def do_set_distance (NUM : Nat) (p : fsm_ultrasound_t × ultrasound_port_t) :
    fsm_ultrasound_t × ultrasound_port_t :=
  let distance := sample_of_port p.2
  let arr1 := p.1.distance_arr.set p.1.distance_idx distance
  let s1 :=
    if NUM - 1 ≤ p.1.distance_idx then
      let arr2 := qsort_distances arr1
      { p.1 with distance_arr := arr2,
                 distance_cm := arr2.getD (NUM / 2) 0,
                 new_measurement := true }
    else
      { p.1 with distance_arr := arr1 }
  let idx1 := s1.distance_idx + 1
  let s2 := { s1 with distance_idx := if NUM ≤ idx1 then 0 else idx1 }
  (s2, { p.2 with echo_init_tick := 0, echo_end_tick := 0,
                  echo_overflows := 0 })

/-- `do_stop_measurement`: `port_ultrasound_stop_ultrasound(id)` acts at the
hardware boundary only. -/
def do_stop_measurement (p : fsm_ultrasound_t × ultrasound_port_t) :
    fsm_ultrasound_t × ultrasound_port_t :=
  p

/-- `do_start_new_measurement` = `do_start_measurement`. -/
def do_start_new_measurement (p : fsm_ultrasound_t × ultrasound_port_t) :
    fsm_ultrasound_t × ultrasound_port_t :=
  do_start_measurement p

end fsm_ultrasound

open fsm_ultrasound in
/-- `fsm_trans_ultrasound` (parametrized by the window size `NUM`).  The
source stresses that in `SET_DISTANCE` the row guarded by
`check_new_measurement` comes before the row guarded by `check_off`. -/
def fsm_trans_ultrasound (NUM : Nat) :
    List (fsm_trans_row (fsm_ultrasound_t × ultrasound_port_t)) :=
  [⟨WAIT_START, check_on, TRIGGER_START, do_start_measurement⟩,
   ⟨TRIGGER_START, check_trigger_end, WAIT_ECHO_START, do_stop_trigger⟩,
   ⟨WAIT_ECHO_START, check_echo_init, WAIT_ECHO_END, fun p => p⟩,
   ⟨WAIT_ECHO_END, check_echo_received, SET_DISTANCE, do_set_distance NUM⟩,
   ⟨SET_DISTANCE, check_new_measurement, TRIGGER_START, do_start_new_measurement⟩,
   ⟨SET_DISTANCE, check_off, WAIT_START, do_stop_measurement⟩]

/-- `fsm_ultrasound_fire` (parametrized by the window size `NUM`). -/
def fsm_ultrasound_fire (NUM : Nat) (p : fsm_ultrasound_t × ultrasound_port_t) :
    fsm_ultrasound_t × ultrasound_port_t :=
  fsm_fire (fun p => p.1.current_state)
    (fun n p => ({ p.1 with current_state := n }, p.2))
    (fsm_trans_ultrasound NUM) p

/-- `fsm_ultrasound_get_distance`: clears `new_measurement` and returns
`distance_cm` (read-and-clear). -/
def fsm_ultrasound_get_distance (s : fsm_ultrasound_t) :
    Nat × fsm_ultrasound_t :=
  (s.distance_cm, { s with new_measurement := false })

/-- `fsm_ultrasound_stop`: disables the sensor
(`port_ultrasound_stop_ultrasound` acts at the hardware boundary). -/
def fsm_ultrasound_stop (s : fsm_ultrasound_t) : fsm_ultrasound_t :=
  { s with status := false }

/-- `fsm_ultrasound_start`: enables the sensor and resets `distance_idx` and
`distance_cm` (the `port_ultrasound_*` calls act at the hardware boundary). -/
def fsm_ultrasound_start (s : fsm_ultrasound_t) : fsm_ultrasound_t :=
  { s with status := true, distance_idx := 0, distance_cm := 0 }

/-- `fsm_ultrasound_get_new_measurement_ready`: peeks `new_measurement`
without clearing it. -/
def fsm_ultrasound_get_new_measurement_ready (s : fsm_ultrasound_t) : Bool :=
  s.new_measurement

/-- `fsm_ultrasound_check_activity`: the source returns `false`
unconditionally. -/
def fsm_ultrasound_check_activity (_ : fsm_ultrasound_t) : Bool :=
  false

/-- Trace harness for the batch-median property: fire `do_set_distance` once
per element of `ports`, each fire seeing the next capture-register values. -/
def fsm_ultrasound_run_samples (NUM : Nat) (s : fsm_ultrasound_t)
    (ports : List ultrasound_port_t) : fsm_ultrasound_t :=
  ports.foldl (fun st p => (fsm_ultrasound.do_set_distance NUM (st, p)).1) s

/-! ## Display FSM (src/unnamed/part_000 = fsm_display.c, constants from
src/unnamed/part_003 = fsm_display.h and src/unnamed/part_004 =
port_display.h) -/

/-- `#define HIGH_DANGER_MIN_CM 0`. -/
def HIGH_DANGER_MIN_CM : Int := 0
/-- `#define DANGER_MIN_CM 5`. -/
def DANGER_MIN_CM : Int := 5
/-- `#define WARNING_MIN_CM 25`. -/
def WARNING_MIN_CM : Int := 25
/-- `#define NO_PROBLEM_MIN_CM 50`. -/
def NO_PROBLEM_MIN_CM : Int := 50
/-- `#define INFO_MIN_CM 150`. -/
def INFO_MIN_CM : Int := 150
/-- `#define OK_MIN_CM 175`. -/
def OK_MIN_CM : Int := 175
/-- `#define OK_MAX_CM 200`. -/
def OK_MAX_CM : Int := 200

/-- `#define PORT_DISPLAY_RGB_MAX_VALUE 255`. -/
def PORT_DISPLAY_RGB_MAX_VALUE : Nat := 255

/-- `rgb_color_t`: three `uint8_t` channels. -/
structure rgb_color_t where
  r : Nat
  g : Nat
  b : Nat
  deriving DecidableEq

/-- `#define COLOR_RED (rgb_color_t){PORT_DISPLAY_RGB_MAX_VALUE, 0, 0}`. -/
def COLOR_RED : rgb_color_t := ⟨PORT_DISPLAY_RGB_MAX_VALUE, 0, 0⟩
/-- `#define COLOR_GREEN (rgb_color_t){0, PORT_DISPLAY_RGB_MAX_VALUE, 0}`. -/
def COLOR_GREEN : rgb_color_t := ⟨0, PORT_DISPLAY_RGB_MAX_VALUE, 0⟩
/-- `#define COLOR_BLUE (rgb_color_t){0, 0, PORT_DISPLAY_RGB_MAX_VALUE}`. -/
def COLOR_BLUE : rgb_color_t := ⟨0, 0, PORT_DISPLAY_RGB_MAX_VALUE⟩
/-- `#define COLOR_YELLOW`: both red and green at `MAX*37/100`. -/
def COLOR_YELLOW : rgb_color_t :=
  ⟨PORT_DISPLAY_RGB_MAX_VALUE * 37 / 100, PORT_DISPLAY_RGB_MAX_VALUE * 37 / 100, 0⟩
/-- `#define COLOR_TURQUOISE`: `MAX/10`, `MAX*35/100`, `MAX*32/100`. -/
def COLOR_TURQUOISE : rgb_color_t :=
  ⟨PORT_DISPLAY_RGB_MAX_VALUE / 10, PORT_DISPLAY_RGB_MAX_VALUE * 35 / 100,
   PORT_DISPLAY_RGB_MAX_VALUE * 32 / 100⟩
/-- `#define COLOR_OFF (rgb_color_t){0, 0, 0}`. -/
def COLOR_OFF : rgb_color_t := ⟨0, 0, 0⟩

/-- `_linear_interp`: per-channel
`low*(hi-d)/(hi-lo) + high*(d-lo)/(hi-lo)` in `int32_t` arithmetic
(`Int.tdiv` is C's truncating division); the compound literal converts each
channel back to `uint8_t` (`% 256`). -/
def _linear_interp (color_inf color_sup : rgb_color_t)
    (distance_inf distance_sup distance_cm : Int) : rgb_color_t :=
  let red := Int.tdiv ((color_inf.r : Int) * (distance_sup - distance_cm))
      (distance_sup - distance_inf) +
    Int.tdiv ((color_sup.r : Int) * (distance_cm - distance_inf))
      (distance_sup - distance_inf)
  let green := Int.tdiv ((color_inf.g : Int) * (distance_sup - distance_cm))
      (distance_sup - distance_inf) +
    Int.tdiv ((color_sup.g : Int) * (distance_cm - distance_inf))
      (distance_sup - distance_inf)
  let blue := Int.tdiv ((color_inf.b : Int) * (distance_sup - distance_cm))
      (distance_sup - distance_inf) +
    Int.tdiv ((color_sup.b : Int) * (distance_cm - distance_inf))
      (distance_sup - distance_inf)
  ⟨(red % 256).toNat, (green % 256).toNat, (blue % 256).toNat⟩

/-- `_compute_display_levels`: the six-tier color mapping of the display. -/
def _compute_display_levels (distance_cm : Int) : rgb_color_t :=
  if distance_cm ≥ HIGH_DANGER_MIN_CM ∧ distance_cm ≤ DANGER_MIN_CM then
    COLOR_RED
  else if distance_cm > DANGER_MIN_CM ∧ distance_cm ≤ WARNING_MIN_CM then
    _linear_interp COLOR_RED COLOR_YELLOW DANGER_MIN_CM WARNING_MIN_CM distance_cm
  else if distance_cm > WARNING_MIN_CM ∧ distance_cm ≤ NO_PROBLEM_MIN_CM then
    _linear_interp COLOR_YELLOW COLOR_GREEN WARNING_MIN_CM NO_PROBLEM_MIN_CM distance_cm
  else if distance_cm > NO_PROBLEM_MIN_CM ∧ distance_cm ≤ INFO_MIN_CM then
    _linear_interp COLOR_GREEN COLOR_TURQUOISE NO_PROBLEM_MIN_CM INFO_MIN_CM distance_cm
  else if distance_cm > INFO_MIN_CM ∧ distance_cm ≤ OK_MIN_CM then
    _linear_interp COLOR_TURQUOISE COLOR_BLUE INFO_MIN_CM OK_MIN_CM distance_cm
  else if distance_cm > OK_MIN_CM ∧ distance_cm ≤ OK_MAX_CM then
    _linear_interp COLOR_BLUE COLOR_OFF OK_MIN_CM OK_MAX_CM distance_cm
  else
    COLOR_OFF

/-- `enum FSM_DISPLAY_SYSTEM`: `WAIT_DISPLAY = 0`. -/
def WAIT_DISPLAY : Int := 0
/-- `enum FSM_DISPLAY_SYSTEM`: `SET_DISPLAY = 1`. -/
def SET_DISPLAY : Int := 1

/-- `struct fsm_display_t` (the embedded `fsm_t` contributes `current_state`;
`display_id` selects hardware and is dropped). -/
structure fsm_display_t where
  current_state : Int
  distance_cm : Int
  new_color : Bool
  status : Bool
  idle : Bool
  deriving DecidableEq

/-- `fsm_display_set_distance`: the `uint32_t` argument is stored in the
`int32_t` field (values stay below 2^31 here) and `new_color` is raised. -/
def fsm_display_set_distance (d : fsm_display_t) (distance_cm : Nat) :
    fsm_display_t :=
  { d with distance_cm := (distance_cm : Int), new_color := true }

/-- `fsm_display_set_status`. -/
def fsm_display_set_status (d : fsm_display_t) (status : Bool) :
    fsm_display_t :=
  { d with status := status }

/-- `fsm_display_check_activity`: `status && !idle`. -/
def fsm_display_check_activity (d : fsm_display_t) : Bool :=
  d.status && !d.idle

/-! ## Buzzer FSM (src/unnamed/part_002 = fsm_buzzer.c, constants from
src/unnamed/part_004 = port_buzzer.h) -/

/-- `#define PORT_BUZZER_MAX_VALUE 255`. -/
def PORT_BUZZER_MAX_VALUE : Int := 255
/-- `#define PORT_BUZZER_MIN_VALUE 0`. -/
def PORT_BUZZER_MIN_VALUE : Int := 0

/-- `_compute_buzzer_levels`: `uint8_t sound`; inside `[HIGH_DANGER_MIN_CM,
OK_MAX_CM]` it is `PORT_BUZZER_MAX_VALUE * (OK_MAX_CM - distance_cm) /
OK_MAX_CM` (int arithmetic, `Int.tdiv` is C's truncating division, `% 256`
the conversion to `uint8_t`), otherwise `PORT_BUZZER_MIN_VALUE`. -/
def _compute_buzzer_levels (distance_cm : Int) : Nat :=
  if distance_cm ≥ HIGH_DANGER_MIN_CM ∧ distance_cm ≤ OK_MAX_CM then
    ((Int.tdiv (PORT_BUZZER_MAX_VALUE * (OK_MAX_CM - distance_cm)) OK_MAX_CM) %
      256).toNat
  else
    (PORT_BUZZER_MIN_VALUE % 256).toNat

/-- `enum FSM_BUZZER_SYSTEM`: `WAIT_BUZZER = 0`. -/
def WAIT_BUZZER : Int := 0
/-- `enum FSM_BUZZER_SYSTEM`: `SET_BUZZER = 1`. -/
def SET_BUZZER : Int := 1

/-- `struct fsm_buzzer_t` (the embedded `fsm_t` contributes `current_state`;
`buzzer_id` selects hardware and is dropped). -/
structure fsm_buzzer_t where
  current_state : Int
  distance_cm : Int
  new_sound : Bool
  status : Bool
  idle : Bool
  deriving DecidableEq

/-- `fsm_buzzer_set_distance`: stores the distance and raises `new_sound`. -/
def fsm_buzzer_set_distance (z : fsm_buzzer_t) (distance_cm : Nat) :
    fsm_buzzer_t :=
  { z with distance_cm := (distance_cm : Int), new_sound := true }

/-- `fsm_buzzer_set_status`. -/
def fsm_buzzer_set_status (z : fsm_buzzer_t) (status : Bool) : fsm_buzzer_t :=
  { z with status := status }

/-- `fsm_buzzer_check_activity`: `status && !idle`. -/
def fsm_buzzer_check_activity (z : fsm_buzzer_t) : Bool :=
  z.status && !z.idle

/-! ## Urbanite orchestrator FSM (src/unnamed/part_001 = fsm_urbanite.c,
enum from src/unnamed/part_004 = fsm_urbanite.h) -/

/-- `enum FSM_URBANITE`: `OFF = 0`. -/
def OFF : Int := 0
/-- `enum FSM_URBANITE`: `MEASURE_FRONT = 1`. -/
def MEASURE_FRONT : Int := 1
/-- `enum FSM_URBANITE`: `MEASURE_REAR = 2`. -/
def MEASURE_REAR : Int := 2
/-- `enum FSM_URBANITE`: `SLEEP_WHILE_OFF = 3`. -/
def SLEEP_WHILE_OFF : Int := 3
/-- `enum FSM_URBANITE`: `SLEEP_WHILE_ON_FRONT = 4`. -/
def SLEEP_WHILE_ON_FRONT : Int := 4
/-- `enum FSM_URBANITE`: `SLEEP_WHILE_ON_REAR = 5`. -/
def SLEEP_WHILE_ON_REAR : Int := 5

/-- `struct fsm_urbanite_t` (the embedded `fsm_t` contributes
`current_state`; the pointers to the subsystem FSMs are embedded values). -/
structure fsm_urbanite_t where
  current_state : Int
  p_fsm_button : fsm_button_t
  on_off_press_time_ms : Nat
  change_press_time_ms : Nat
  pause_display_time_ms : Nat
  is_paused : Bool
  is_rear : Bool
  p_fsm_ultrasound_front : fsm_ultrasound_t
  p_fsm_display_front : fsm_display_t
  p_fsm_ultrasound_rear : fsm_ultrasound_t
  p_fsm_display_rear : fsm_display_t
  p_fsm_buzzer : fsm_buzzer_t
  deriving DecidableEq

namespace fsm_urbanite

/-- `check_on` (urbanite): `duration > 0 && duration >= on_off_press_time_ms`. -/
def check_on (u : fsm_urbanite_t) : Bool :=
  let duration := fsm_button_get_duration u.p_fsm_button
  decide (duration > 0 ∧ duration ≥ u.on_off_press_time_ms)

/-- `check_off` (urbanite) = `check_on`. -/
def check_off (u : fsm_urbanite_t) : Bool :=
  check_on u

/-- `check_new_measure`: poll the `new_measurement` flag of the ultrasound
selected by `is_rear`. -/
def check_new_measure (u : fsm_urbanite_t) : Bool :=
  if u.is_rear then
    fsm_ultrasound_get_new_measurement_ready u.p_fsm_ultrasound_rear
  else
    fsm_ultrasound_get_new_measurement_ready u.p_fsm_ultrasound_front

/-- `check_pause`:
`duration > 0 && duration < change_press_time_ms && duration >= pause_display_time_ms`. -/
def check_pause (u : fsm_urbanite_t) : Bool :=
  let duration := fsm_button_get_duration u.p_fsm_button
  decide (duration > 0 ∧ duration < u.change_press_time_ms ∧
    duration ≥ u.pause_display_time_ms)

/-- `check_activity`: any of button, front/rear ultrasound, front/rear
display or buzzer reports activity. -/
def check_activity (u : fsm_urbanite_t) : Bool :=
  let button_status := fsm_button_check_activity u.p_fsm_button
  let ultrasound_front_status :=
    fsm_ultrasound_check_activity u.p_fsm_ultrasound_front
  let display_front_status := fsm_display_check_activity u.p_fsm_display_front
  let ultrasound_rear_status :=
    fsm_ultrasound_check_activity u.p_fsm_ultrasound_rear
  let display_rear_status := fsm_display_check_activity u.p_fsm_display_rear
  let buzzer_status := fsm_buzzer_check_activity u.p_fsm_buzzer
  button_status || ultrasound_front_status || display_front_status ||
    ultrasound_rear_status || display_rear_status || buzzer_status

/-- `check_no_activity`: the source body is `return false;` (the logical
negation `!check_activity(p_this)` is commented out). -/
def check_no_activity (_ : fsm_urbanite_t) : Bool :=
  false

/-- `check_activity_in_measure` = `check_new_measure`. -/
def check_activity_in_measure (u : fsm_urbanite_t) : Bool :=
  check_new_measure u

/-- `check_front`:
`duration > 0 && duration >= change_press_time_ms && duration < on_off_press_time_ms`. -/
def check_front (u : fsm_urbanite_t) : Bool :=
  let duration := fsm_button_get_duration u.p_fsm_button
  decide (duration > 0 ∧ duration ≥ u.change_press_time_ms ∧
    duration < u.on_off_press_time_ms)

/-- `check_rear` = `check_front`. -/
def check_rear (u : fsm_urbanite_t) : Bool :=
  check_front u

/-- `do_start_up_measure`: reset the button duration, start the front
ultrasound, and force the front display and the buzzer inactive.  (The
source does not touch `is_rear` here.) -/
def do_start_up_measure (u : fsm_urbanite_t) : fsm_urbanite_t :=
  let u := { u with p_fsm_button := fsm_button_reset_duration u.p_fsm_button }
  let u := { u with
    p_fsm_ultrasound_front := fsm_ultrasound_start u.p_fsm_ultrasound_front }
  let u := { u with
    p_fsm_display_front := fsm_display_set_status u.p_fsm_display_front false }
  { u with p_fsm_buzzer := fsm_buzzer_set_status u.p_fsm_buzzer false }

/-- `do_distance`: force the non-live display inactive, read-and-clear the
live ultrasound's distance, then publish it to the live display and the
buzzer — unconditionally when not paused, and when paused only if the
distance is strictly below `WARNING_MIN_CM / 2`, forcing both inactive
otherwise. -/
def do_distance (u : fsm_urbanite_t) : fsm_urbanite_t :=
  if !u.is_rear then
    let u := { u with
      p_fsm_display_rear := fsm_display_set_status u.p_fsm_display_rear false }
    let dist_read := fsm_ultrasound_get_distance u.p_fsm_ultrasound_front
    let distance := dist_read.1
    let u := { u with p_fsm_ultrasound_front := dist_read.2 }
    if u.is_paused then
      if distance < (WARNING_MIN_CM / 2).toNat then
        let u := { u with p_fsm_display_front :=
          fsm_display_set_distance u.p_fsm_display_front distance }
        let u := { u with p_fsm_buzzer :=
          fsm_buzzer_set_distance u.p_fsm_buzzer distance }
        let u := { u with p_fsm_display_front :=
          fsm_display_set_status u.p_fsm_display_front true }
        { u with p_fsm_buzzer := fsm_buzzer_set_status u.p_fsm_buzzer true }
      else
        let u := { u with p_fsm_display_front :=
          fsm_display_set_status u.p_fsm_display_front false }
        { u with p_fsm_buzzer := fsm_buzzer_set_status u.p_fsm_buzzer false }
    else
      let u := { u with p_fsm_display_front :=
        fsm_display_set_distance u.p_fsm_display_front distance }
      let u := { u with p_fsm_buzzer :=
        fsm_buzzer_set_distance u.p_fsm_buzzer distance }
      let u := { u with p_fsm_display_front :=
        fsm_display_set_status u.p_fsm_display_front true }
      { u with p_fsm_buzzer := fsm_buzzer_set_status u.p_fsm_buzzer true }
  else
    let u := { u with
      p_fsm_display_front := fsm_display_set_status u.p_fsm_display_front false }
    let dist_read := fsm_ultrasound_get_distance u.p_fsm_ultrasound_rear
    let distance := dist_read.1
    let u := { u with p_fsm_ultrasound_rear := dist_read.2 }
    if u.is_paused then
      if distance < (WARNING_MIN_CM / 2).toNat then
        let u := { u with p_fsm_display_rear :=
          fsm_display_set_distance u.p_fsm_display_rear distance }
        let u := { u with p_fsm_buzzer :=
          fsm_buzzer_set_distance u.p_fsm_buzzer distance }
        let u := { u with p_fsm_display_rear :=
          fsm_display_set_status u.p_fsm_display_rear true }
        { u with p_fsm_buzzer := fsm_buzzer_set_status u.p_fsm_buzzer true }
      else
        let u := { u with p_fsm_display_rear :=
          fsm_display_set_status u.p_fsm_display_rear false }
        { u with p_fsm_buzzer := fsm_buzzer_set_status u.p_fsm_buzzer false }
    else
      let u := { u with p_fsm_display_rear :=
        fsm_display_set_distance u.p_fsm_display_rear distance }
      let u := { u with p_fsm_buzzer :=
        fsm_buzzer_set_distance u.p_fsm_buzzer distance }
      let u := { u with p_fsm_display_rear :=
        fsm_display_set_status u.p_fsm_display_rear true }
      { u with p_fsm_buzzer := fsm_buzzer_set_status u.p_fsm_buzzer true }

/-- `do_pause`: reset the button duration, toggle `is_paused`, and propagate
the new flag as the status of the live display and of the buzzer. -/
def do_pause (u : fsm_urbanite_t) : fsm_urbanite_t :=
  let u := { u with p_fsm_button := fsm_button_reset_duration u.p_fsm_button }
  let u := { u with is_paused := !u.is_paused }
  let u :=
    if u.is_rear then
      { u with p_fsm_display_rear :=
        fsm_display_set_status u.p_fsm_display_rear u.is_paused }
    else
      { u with p_fsm_display_front :=
        fsm_display_set_status u.p_fsm_display_front u.is_paused }
  { u with p_fsm_buzzer := fsm_buzzer_set_status u.p_fsm_buzzer u.is_paused }

/-- `do_stop_urbanite`: reset the button duration, stop both ultrasounds,
force both displays and the buzzer inactive, and clear `is_paused`. -/
def do_stop_urbanite (u : fsm_urbanite_t) : fsm_urbanite_t :=
  let u := { u with p_fsm_button := fsm_button_reset_duration u.p_fsm_button }
  let u := { u with
    p_fsm_ultrasound_front := fsm_ultrasound_stop u.p_fsm_ultrasound_front }
  let u := { u with
    p_fsm_display_front := fsm_display_set_status u.p_fsm_display_front false }
  let u := { u with
    p_fsm_ultrasound_rear := fsm_ultrasound_stop u.p_fsm_ultrasound_rear }
  let u := { u with
    p_fsm_display_rear := fsm_display_set_status u.p_fsm_display_rear false }
  let u := { u with p_fsm_buzzer := fsm_buzzer_set_status u.p_fsm_buzzer false }
  if u.is_paused then { u with is_paused := false } else u

/-- `do_sleep_while_off`: `port_system_sleep()` suspends at the hardware
boundary; the embedded state is unchanged. -/
def do_sleep_while_off (u : fsm_urbanite_t) : fsm_urbanite_t := u

/-- `do_sleep_while_on`: see `do_sleep_while_off`. -/
def do_sleep_while_on (u : fsm_urbanite_t) : fsm_urbanite_t := u

/-- `do_sleep_while_measure`: see `do_sleep_while_off`. -/
def do_sleep_while_measure (u : fsm_urbanite_t) : fsm_urbanite_t := u

/-- `do_sleep_off`: see `do_sleep_while_off`. -/
def do_sleep_off (u : fsm_urbanite_t) : fsm_urbanite_t := u

/-- `do_change_rear`: reset the button duration, stop the front pair, set
`is_rear`, and start the rear pair. -/
def do_change_rear (u : fsm_urbanite_t) : fsm_urbanite_t :=
  let u := { u with p_fsm_button := fsm_button_reset_duration u.p_fsm_button }
  let u := { u with
    p_fsm_ultrasound_front := fsm_ultrasound_stop u.p_fsm_ultrasound_front }
  let u := { u with
    p_fsm_display_front := fsm_display_set_status u.p_fsm_display_front false }
  let u := { u with is_rear := true }
  let u := { u with
    p_fsm_ultrasound_rear := fsm_ultrasound_start u.p_fsm_ultrasound_rear }
  { u with
    p_fsm_display_rear := fsm_display_set_status u.p_fsm_display_rear false }

/-- `do_change_front`: mirror of `do_change_rear`. -/
def do_change_front (u : fsm_urbanite_t) : fsm_urbanite_t :=
  let u := { u with p_fsm_button := fsm_button_reset_duration u.p_fsm_button }
  let u := { u with
    p_fsm_ultrasound_rear := fsm_ultrasound_stop u.p_fsm_ultrasound_rear }
  let u := { u with
    p_fsm_display_rear := fsm_display_set_status u.p_fsm_display_rear false }
  let u := { u with is_rear := false }
  let u := { u with
    p_fsm_ultrasound_front := fsm_ultrasound_start u.p_fsm_ultrasound_front }
  { u with
    p_fsm_display_front := fsm_display_set_status u.p_fsm_display_front false }

end fsm_urbanite

open fsm_urbanite in
/-- `fsm_trans_urbanite` (the terminating sentinel row is the end of the
list); rows in source order — the order is load-bearing. -/
def fsm_trans_urbanite : List (fsm_trans_row fsm_urbanite_t) :=
  [⟨OFF, check_on, MEASURE_FRONT, do_start_up_measure⟩,
   ⟨OFF, check_no_activity, SLEEP_WHILE_OFF, do_sleep_off⟩,
   ⟨MEASURE_FRONT, check_off, OFF, do_stop_urbanite⟩,
   ⟨MEASURE_FRONT, check_pause, MEASURE_FRONT, do_pause⟩,
   ⟨MEASURE_FRONT, check_new_measure, MEASURE_FRONT, do_distance⟩,
   ⟨MEASURE_FRONT, check_rear, MEASURE_REAR, do_change_rear⟩,
   ⟨MEASURE_FRONT, check_no_activity, SLEEP_WHILE_ON_FRONT, do_sleep_while_measure⟩,
   ⟨MEASURE_REAR, check_off, OFF, do_stop_urbanite⟩,
   ⟨MEASURE_REAR, check_pause, MEASURE_REAR, do_pause⟩,
   ⟨MEASURE_REAR, check_new_measure, MEASURE_REAR, do_distance⟩,
   ⟨MEASURE_REAR, check_front, MEASURE_FRONT, do_change_front⟩,
   ⟨MEASURE_REAR, check_no_activity, SLEEP_WHILE_ON_REAR, do_sleep_while_measure⟩,
   ⟨SLEEP_WHILE_ON_FRONT, check_activity_in_measure, MEASURE_FRONT, fun u => u⟩,
   ⟨SLEEP_WHILE_ON_FRONT, check_no_activity, SLEEP_WHILE_ON_FRONT, do_sleep_while_on⟩,
   ⟨SLEEP_WHILE_ON_REAR, check_activity_in_measure, MEASURE_REAR, fun u => u⟩,
   ⟨SLEEP_WHILE_ON_REAR, check_no_activity, SLEEP_WHILE_ON_REAR, do_sleep_while_on⟩,
   ⟨SLEEP_WHILE_OFF, check_activity, OFF, fun u => u⟩,
   ⟨SLEEP_WHILE_OFF, check_no_activity, SLEEP_WHILE_OFF, do_sleep_while_off⟩]

/-- `fsm_urbanite_fire`: one fire of the orchestrator FSM. -/
def fsm_urbanite_fire (u : fsm_urbanite_t) : fsm_urbanite_t :=
  fsm_fire (fun u => u.current_state)
    (fun n u => { u with current_state := n }) fsm_trans_urbanite u

/-! ## Concrete fixtures

`main.c` configures debounce time 100 ms
(`PORT_PARKING_BUTTON_DEBOUNCE_TIME_MS`), on/off press time 3000 ms,
front/rear change press time 1000 ms and pause press time 500 ms. -/

/-- A freshly released button FSM with the 100 ms debounce of `main.c`. -/
def button_released_100 : fsm_button_t :=
  ⟨BUTTON_RELEASED, 100, 0, 0, 0⟩

/-- A stopped ultrasound FSM with a five-sample window. -/
def ultrasound_idle : fsm_ultrasound_t :=
  ⟨WAIT_START, 0, false, false, [0, 0, 0, 0, 0], 0⟩

/-- An inactive display FSM. -/
def display_inactive : fsm_display_t :=
  ⟨WAIT_DISPLAY, -1, false, false, false⟩

/-- An active display FSM whose color has been applied (idle). -/
def display_idle_active : fsm_display_t :=
  ⟨SET_DISPLAY, 30, false, true, true⟩

/-- An inactive buzzer FSM. -/
def buzzer_inactive : fsm_buzzer_t :=
  ⟨WAIT_BUZZER, -1, false, false, false⟩

/-- An active buzzer FSM whose sound has been applied (idle). -/
def buzzer_idle_active : fsm_buzzer_t :=
  ⟨SET_BUZZER, 30, false, true, true⟩

/-- An orchestrator that was measuring REAR, then turned OFF (so `is_rear`
stayed `true` and the rear ultrasound still holds a pending
`new_measurement`), and whose button now reports a completed 3000 ms press. -/
def C1_off_state : fsm_urbanite_t :=
  { current_state := OFF,
    p_fsm_button := { button_released_100 with duration := 3000 },
    on_off_press_time_ms := 3000, change_press_time_ms := 1000,
    pause_display_time_ms := 500, is_paused := false, is_rear := true,
    p_fsm_ultrasound_front := ultrasound_idle,
    p_fsm_display_front := display_inactive,
    p_fsm_ultrasound_rear := { ultrasound_idle with new_measurement := true },
    p_fsm_display_rear := display_inactive,
    p_fsm_buzzer := buzzer_inactive }

/-- An orchestrator in `MEASURE_FRONT` with nothing going on: no pending
button duration, no new measurement, button FSM released, both displays and
the buzzer inactive or idle — every `check_activity` reports inactive. -/
def C2_idle_state : fsm_urbanite_t :=
  { current_state := MEASURE_FRONT,
    p_fsm_button := button_released_100,
    on_off_press_time_ms := 3000, change_press_time_ms := 1000,
    pause_display_time_ms := 500, is_paused := false, is_rear := false,
    p_fsm_ultrasound_front := { ultrasound_idle with status := true },
    p_fsm_display_front := display_idle_active,
    p_fsm_ultrasound_rear := ultrasound_idle,
    p_fsm_display_rear := display_inactive,
    p_fsm_buzzer := buzzer_idle_active }

/-- Button FSM after a fire at t = 0 ms with the button pressed. -/
def C4_b1 : fsm_button_t :=
  fsm_button_fire button_released_100 ⟨true, 0⟩

/-- Button FSM after a further fire at t = 50 ms with the button already
released (the press lasted at most 50 ms < 100 ms of debounce). -/
def C4_b2 : fsm_button_t :=
  fsm_button_fire C4_b1 ⟨false, 50⟩

/-- Button FSM after a further fire at t = 101 ms, still released. -/
def C4_b3 : fsm_button_t :=
  fsm_button_fire C4_b2 ⟨false, 101⟩

/-- An enabled ultrasound FSM sitting in `SET_DISTANCE` that has just been
disabled (`status = false`) while the periodic timer already reports ready
for the next cycle. -/
def C7_state : fsm_ultrasound_t :=
  { ultrasound_idle with current_state := SET_DISTANCE, status := false }

/-- Port flags for `C7_state`: `trigger_ready` raised. -/
def C7_port : ultrasound_port_t :=
  ⟨true, false, 0, 0, false, 0⟩

/-- A paused orchestrator measuring FRONT whose front ultrasound has a new
measurement of `d` cm ready. -/
def C3_paused_front (d : Nat) : fsm_urbanite_t :=
  { current_state := MEASURE_FRONT,
    p_fsm_button := button_released_100,
    on_off_press_time_ms := 3000, change_press_time_ms := 1000,
    pause_display_time_ms := 500, is_paused := true, is_rear := false,
    p_fsm_ultrasound_front :=
      { ultrasound_idle with
          status := true, new_measurement := true, distance_cm := d },
    p_fsm_display_front := display_inactive,
    p_fsm_ultrasound_rear := ultrasound_idle,
    p_fsm_display_rear := display_inactive,
    p_fsm_buzzer := buzzer_inactive }

/-- An unpaused orchestrator measuring FRONT (thresholds 3000/1000/500 of
`main.c`, no new measurement pending) whose button reports a completed press
of `d` ms. -/
def C5_measuring (d : Nat) : fsm_urbanite_t :=
  { current_state := MEASURE_FRONT,
    p_fsm_button := { button_released_100 with duration := d },
    on_off_press_time_ms := 3000, change_press_time_ms := 1000,
    pause_display_time_ms := 500, is_paused := false, is_rear := false,
    p_fsm_ultrasound_front := { ultrasound_idle with status := true },
    p_fsm_display_front := display_idle_active,
    p_fsm_ultrasound_rear := ultrasound_idle,
    p_fsm_display_rear := display_inactive,
    p_fsm_buzzer := buzzer_idle_active }

/-- A five-sample ultrasound window mid-measurement (for the batch-median
witness), with stale values in the buffer. -/
def C6_s5 : fsm_ultrasound_t :=
  ⟨WAIT_ECHO_END, 0, true, false, [9, 9, 9, 9, 9], 0⟩

/-- Echo captures producing the sample `n` cm (echo length `583 * n` µs). -/
def C6_port_of (n : Nat) : ultrasound_port_t :=
  ⟨true, false, 1, 1 + 583 * n, true, 0⟩

/-! ## Theorems -/

/-- Helper: setting the element right after a prefix `done`. -/
theorem list_set_at_length (done : List Nat) (r : Nat) (rest : List Nat)
    (a : Nat) : (done ++ r :: rest).set done.length a = done ++ a :: rest := by
  induction done with
  | nil => rfl
  | cons x xs ih => simp [ih]

/-- Helper: a `do_set_distance` fire that does not land on the last slot
only stores the sample and advances the index. -/
theorem do_set_distance_no_boundary (NUM : Nat) (s : fsm_ultrasound_t)
    (p : ultrasound_port_t) (h : s.distance_idx + 1 < NUM) :
    (fsm_ultrasound.do_set_distance NUM (s, p)).1 =
      { s with
          distance_arr := s.distance_arr.set s.distance_idx (sample_of_port p),
          distance_idx := s.distance_idx + 1 } := by
  unfold fsm_ultrasound.do_set_distance
  have h1 : ¬ NUM - 1 ≤ s.distance_idx := by omega
  have h2 : ¬ NUM ≤ s.distance_idx + 1 := by omega
  simp [h1, h2]

/-- Helper: a `do_set_distance` fire landing on the last slot sorts the
window, publishes its middle element, raises `new_measurement` and wraps the
index to 0. -/
theorem do_set_distance_boundary (NUM : Nat) (s : fsm_ultrasound_t)
    (p : ultrasound_port_t) (hN : 1 ≤ NUM) (h : s.distance_idx = NUM - 1) :
    (fsm_ultrasound.do_set_distance NUM (s, p)).1 =
      { s with
          distance_arr :=
            qsort_distances (s.distance_arr.set s.distance_idx (sample_of_port p)),
          distance_cm :=
            (qsort_distances
              (s.distance_arr.set s.distance_idx (sample_of_port p))).getD
              (NUM / 2) 0,
          new_measurement := true,
          distance_idx := 0 } := by
  unfold fsm_ultrasound.do_set_distance
  have h1 : NUM - 1 ≤ s.distance_idx := by omega
  have h2 : NUM ≤ s.distance_idx + 1 := by omega
  simp [h1, h2]

/-- Helper: firing `do_set_distance` once per element of `ports` without
ever reaching the last slot writes exactly the incoming samples after the
already-written prefix `done`, advancing the index accordingly and touching
nothing else. -/
theorem run_samples_no_boundary (NUM : Nat) :
    ∀ (ports : List ultrasound_port_t) (done rest : List Nat)
      (s : fsm_ultrasound_t),
      s.distance_arr = done ++ rest →
      s.distance_idx = done.length →
      done.length + rest.length = NUM →
      done.length + ports.length + 1 ≤ NUM →
      fsm_ultrasound_run_samples NUM s ports =
        { s with
            distance_arr :=
              done ++ ports.map sample_of_port ++ rest.drop ports.length,
            distance_idx := done.length + ports.length } := by
  intro ports
  induction ports with
  | nil =>
    intro done rest s harr hidx hlen hbound
    simp [fsm_ultrasound_run_samples, harr.symm, hidx.symm]
  | cons p ps ih =>
    intro done rest s harr hidx hlen hbound
    obtain ⟨r, rest', rfl⟩ : ∃ r rest', rest = r :: rest' := by
      cases rest with
      | nil => exfalso; simp at hlen hbound; omega
      | cons r rest' => exact ⟨r, rest', rfl⟩
    have hstep := do_set_distance_no_boundary NUM s p (by simp at hbound; omega)
    have hfold : fsm_ultrasound_run_samples NUM s (p :: ps) =
        fsm_ultrasound_run_samples NUM
          ((fsm_ultrasound.do_set_distance NUM (s, p)).1) ps := by
      simp [fsm_ultrasound_run_samples]
    rw [hfold, hstep, harr, hidx, list_set_at_length]
    rw [ih (done ++ [sample_of_port p]) rest' _ (by simp)
      (by simp) (by simp at hlen ⊢; omega) (by simp at hbound ⊢; omega)]
    congr 1
    · simp
    · simp
      omega

/-- C6: the published `distance_cm` changes only on the fire that stores a
sample into the last slot of the `NUM`-element window (the index then
wrapping to 0); there it becomes the middle element of the sorted window —
which, starting from a batch boundary (`distance_idx = 0`), consists of
exactly the `NUM` samples captured since that boundary — and
`new_measurement` is raised; any other sample-storing fire leaves
`distance_cm` and `new_measurement` unchanged. -/
theorem C6_batch_median (NUM : Nat) (hN : 1 ≤ NUM) (s : fsm_ultrasound_t)
    (hlen : s.distance_arr.length = NUM) :
    (∀ p : ultrasound_port_t, s.distance_idx < NUM - 1 →
      (fsm_ultrasound.do_set_distance NUM (s, p)).1.distance_cm =
        s.distance_cm ∧
      (fsm_ultrasound.do_set_distance NUM (s, p)).1.new_measurement =
        s.new_measurement ∧
      (fsm_ultrasound.do_set_distance NUM (s, p)).1.distance_idx =
        s.distance_idx + 1) ∧
    (∀ p : ultrasound_port_t, s.distance_idx = NUM - 1 →
      (fsm_ultrasound.do_set_distance NUM (s, p)).1.new_measurement = true ∧
      (fsm_ultrasound.do_set_distance NUM (s, p)).1.distance_idx = 0 ∧
      (fsm_ultrasound.do_set_distance NUM (s, p)).1.distance_cm =
        (qsort_distances
          (s.distance_arr.set s.distance_idx (sample_of_port p))).getD
          (NUM / 2) 0) ∧
    (∀ ports : List ultrasound_port_t, s.distance_idx = 0 →
      ports.length = NUM →
      (fsm_ultrasound_run_samples NUM s ports).distance_cm =
        (qsort_distances (ports.map sample_of_port)).getD (NUM / 2) 0 ∧
      (fsm_ultrasound_run_samples NUM s ports).new_measurement = true ∧
      (fsm_ultrasound_run_samples NUM s ports).distance_idx = 0) := by
  refine ⟨?_, ?_, ?_⟩
  · intro p h
    rw [do_set_distance_no_boundary NUM s p (by omega)]
    exact ⟨rfl, rfl, rfl⟩
  · intro p h
    rw [do_set_distance_boundary NUM s p hN h]
    exact ⟨rfl, rfl, rfl⟩
  · intro ports hidx0 hports
    have hne : ports ≠ [] := by
      intro hnil
      rw [hnil] at hports
      simp at hports
      omega
    obtain ⟨ps, p, rfl⟩ : ∃ ps p, ports = ps ++ [p] :=
      ⟨ports.dropLast, ports.getLast hne,
        (List.dropLast_append_getLast hne).symm⟩
    have hps : ps.length = NUM - 1 := by
      simp at hports
      omega
    have hpre := run_samples_no_boundary NUM ps [] s.distance_arr s
      (by simp) (by simpa using hidx0) (by simpa using hlen)
      (by simp [hps]; omega)
    have hfold : fsm_ultrasound_run_samples NUM s (ps ++ [p]) =
        (fsm_ultrasound.do_set_distance NUM
          (fsm_ultrasound_run_samples NUM s ps, p)).1 := by
      simp [fsm_ultrasound_run_samples]
    obtain ⟨b, hb⟩ : ∃ b, s.distance_arr.drop ps.length = [b] := by
      rw [List.length_eq_one.symm, List.length_drop, hlen, hps]
      omega
    have hlast := do_set_distance_boundary NUM
      (fsm_ultrasound_run_samples NUM s ps) p hN (by rw [hpre]; simp [hps])
    rw [hfold, hlast, hpre]
    simp only [List.nil_append, List.length_nil, Nat.zero_add, hb]
    rw [show ps.length = (ps.map sample_of_port).length from (by simp),
      list_set_at_length]
    simp only [List.map_append, List.map_cons, List.map_nil]
    refine ⟨?_, ?_, ?_⟩ <;> trivial

/-- Witness for C6 with a five-sample window and samples 29, 9, 49, 19, 39
cm: the batch fire publishes the median 29 and wraps the index. -/
theorem C6_witness :
    (fsm_ultrasound_run_samples 5 C6_s5
      ([3, 1, 5, 2, 4].map C6_port_of)).distance_cm =
      (qsort_distances
        (([3, 1, 5, 2, 4].map C6_port_of).map sample_of_port)).getD 2 0 ∧
    (fsm_ultrasound_run_samples 5 C6_s5
      ([3, 1, 5, 2, 4].map C6_port_of)).new_measurement = true ∧
    (fsm_ultrasound_run_samples 5 C6_s5
      ([3, 1, 5, 2, 4].map C6_port_of)).distance_idx = 0 :=
  (C6_batch_median 5 (by decide) C6_s5 rfl).2.2
    ([3, 1, 5, 2, 4].map C6_port_of) rfl rfl

/-- C9: `fsm_ultrasound_check_activity` returns `false` for every ultrasound
FSM state and configuration, so the orchestrator's `check_activity` is
exactly the disjunction of the button, the two displays and the buzzer
activities — an in-flight ultrasound measurement never contributes. -/
theorem C9_ultrasound_never_active :
    (∀ s : fsm_ultrasound_t, fsm_ultrasound_check_activity s = false) ∧
    (∀ u : fsm_urbanite_t, fsm_urbanite.check_activity u =
      (fsm_button_check_activity u.p_fsm_button ||
       fsm_display_check_activity u.p_fsm_display_front ||
       fsm_display_check_activity u.p_fsm_display_rear ||
       fsm_buzzer_check_activity u.p_fsm_buzzer)) := by
  constructor
  · intro s
    rfl
  · intro u
    simp [fsm_urbanite.check_activity, fsm_ultrasound_check_activity,
      Bool.or_assoc]

/-- C10: `fsm_ultrasound_start` sets `status`, resets `distance_idx` and
`distance_cm` to 0, and leaves `new_measurement` unchanged: a pending
measurement-ready flag survives a stop/start pair and is then readable as a
published distance of 0. -/
theorem C10_start_preserves_new_measurement (s : fsm_ultrasound_t) :
    (fsm_ultrasound_start s).status = true ∧
    (fsm_ultrasound_start s).distance_idx = 0 ∧
    (fsm_ultrasound_start s).distance_cm = 0 ∧
    (fsm_ultrasound_start s).new_measurement = s.new_measurement ∧
    fsm_ultrasound_get_new_measurement_ready
      (fsm_ultrasound_start (fsm_ultrasound_stop s)) = s.new_measurement ∧
    (fsm_ultrasound_get_distance
      (fsm_ultrasound_start (fsm_ultrasound_stop s))).1 = 0 :=
  ⟨rfl, rfl, rfl, rfl, rfl, rfl⟩

/-- C7: in `SET_DISTANCE`, when the ready-for-next-cycle condition and the
disabled condition hold at the same time, the fire goes to `TRIGGER_START`
(new measurement), not to `WAIT_START`: `check_new_measurement` is evaluated
before `check_off` and the first match wins. -/
theorem C7_new_measurement_beats_disable (NUM : Nat) (s : fsm_ultrasound_t)
    (port : ultrasound_port_t) (hstate : s.current_state = SET_DISTANCE)
    (hready : port.trigger_ready = true) (hoff : s.status = false) :
    fsm_ultrasound.check_new_measurement (s, port) = true ∧
    fsm_ultrasound.check_off (s, port) = true ∧
    (fsm_ultrasound_fire NUM (s, port)).1.current_state = TRIGGER_START := by
  refine ⟨?_, ?_, ?_⟩
  · simpa [fsm_ultrasound.check_new_measurement] using hready
  · simp [fsm_ultrasound.check_off, hoff]
  · simp [fsm_ultrasound_fire, fsm_trans_ultrasound, fsm_fire, hstate, hready,
      fsm_ultrasound.check_new_measurement, SET_DISTANCE, WAIT_START,
      TRIGGER_START, WAIT_ECHO_START, WAIT_ECHO_END]

/-- Witness for C7 at a concrete disabled-but-ready state. -/
theorem C7_witness :
    fsm_ultrasound.check_new_measurement (C7_state, C7_port) = true ∧
    fsm_ultrasound.check_off (C7_state, C7_port) = true ∧
    (fsm_ultrasound_fire 5 (C7_state, C7_port)).1.current_state =
      TRIGGER_START :=
  C7_new_measurement_beats_disable 5 C7_state C7_port rfl rfl rfl

/-- C4: the press of `C4_b1`/`C4_b2`/`C4_b3` is set at t = 0 and cleared by
t = 50, inside the 100 ms debounce window, yet the button FSM reaches
`BUTTON_PRESSED` at the t = 101 fire: in `BUTTON_PRESSED_WAIT` the only row
is the timeout row, so a press shorter than the debounce time still reaches
`BUTTON_PRESSED` once the timeout elapses, contradicting the claim (and the
source's own description of the anti-debounce mechanism). -/
theorem C4_short_press_reaches_pressed :
    (50 : Nat) < button_released_100.debounce_time_ms ∧
    C4_b1.current_state = BUTTON_PRESSED_WAIT ∧
    C4_b2.current_state = BUTTON_PRESSED_WAIT ∧
    C4_b3.current_state = BUTTON_PRESSED := by
  refine ⟨by decide, rfl, rfl, rfl⟩

/-- C1: firing `C1_off_state` (system OFF after a REAR session, on/off-long
press pending) moves to `MEASURE_FRONT`, starts the front ultrasound, resets
the duration and forces the front display and buzzer inactive — but
`do_start_up_measure` never clears `is_rear`, so the live-pair selector
still designates REAR and `check_new_measure` keeps polling the rear
ultrasound, contradicting the claim's "always resuming on FRONT" selector
reset. -/
theorem C1_cold_start_keeps_rear_selector :
    (fsm_urbanite_fire C1_off_state).current_state = MEASURE_FRONT ∧
    (fsm_urbanite_fire C1_off_state).p_fsm_ultrasound_front.status = true ∧
    (fsm_urbanite_fire C1_off_state).p_fsm_button.duration = 0 ∧
    (fsm_urbanite_fire C1_off_state).p_fsm_display_front.status = false ∧
    (fsm_urbanite_fire C1_off_state).p_fsm_buzzer.status = false ∧
    (fsm_urbanite_fire C1_off_state).is_rear = true ∧
    fsm_urbanite.check_new_measure (fsm_urbanite_fire C1_off_state) =
      fsm_ultrasound_get_new_measurement_ready
        (fsm_urbanite_fire C1_off_state).p_fsm_ultrasound_rear := by
  refine ⟨rfl, rfl, rfl, rfl, rfl, rfl, ?_⟩
  decide

/-- C2: `check_no_activity` is hard-coded to `false`, so even in the fully
idle `C2_idle_state` (whose `check_activity` is `false`, i.e. button, both
ultrasound/display pairs and buzzer all report inactive) the orchestrator
never takes the `MEASURE_FRONT → SLEEP_WHILE_ON_FRONT` row: the fire leaves
the state unchanged instead of entering the low-power wait. -/
theorem C2_sleep_entry_never_fires :
    (∀ u : fsm_urbanite_t, fsm_urbanite.check_no_activity u = false) ∧
    fsm_urbanite.check_activity C2_idle_state = false ∧
    fsm_urbanite_fire C2_idle_state = C2_idle_state := by
  refine ⟨fun _ => rfl, by decide, by decide⟩

/-- C8: at each tier boundary the display color is exactly the anchor color
of the tier beginning there (solid red on [0, 5], yellow at 25, green at 50,
turquoise at 150, blue at 175, off at 200), and out of range (above 200 cm
or below 0) the display is off and the buzzer silent. -/
theorem C8_tier_boundary_anchors (d : Int) :
    (HIGH_DANGER_MIN_CM ≤ d → d ≤ DANGER_MIN_CM →
      _compute_display_levels d = COLOR_RED) ∧
    (d = WARNING_MIN_CM → _compute_display_levels d = COLOR_YELLOW) ∧
    (d = NO_PROBLEM_MIN_CM → _compute_display_levels d = COLOR_GREEN) ∧
    (d = INFO_MIN_CM → _compute_display_levels d = COLOR_TURQUOISE) ∧
    (d = OK_MIN_CM → _compute_display_levels d = COLOR_BLUE) ∧
    (d = OK_MAX_CM → _compute_display_levels d = COLOR_OFF) ∧
    (OK_MAX_CM < d ∨ d < HIGH_DANGER_MIN_CM →
      _compute_display_levels d = COLOR_OFF ∧ _compute_buzzer_levels d = 0) := by
  refine ⟨?_, ?_, ?_, ?_, ?_, ?_, ?_⟩
  · intro h1 h2
    unfold _compute_display_levels
    rw [if_pos ⟨h1, h2⟩]
  · rintro rfl
    decide
  · rintro rfl
    decide
  · rintro rfl
    decide
  · rintro rfl
    decide
  · rintro rfl
    decide
  · intro h
    constructor
    · unfold _compute_display_levels
      simp only [HIGH_DANGER_MIN_CM, DANGER_MIN_CM, WARNING_MIN_CM,
        NO_PROBLEM_MIN_CM, INFO_MIN_CM, OK_MIN_CM, OK_MAX_CM] at h ⊢
      split_ifs with h1 h2 h3 h4 h5 h6 <;> first
        | rfl
        | (exfalso; omega)
    · unfold _compute_buzzer_levels
      rw [if_neg]
      · rfl
      · simp only [HIGH_DANGER_MIN_CM, OK_MAX_CM] at h ⊢
        omega

/-- Witness for C8 at the boundary 25 and out of range at 201. -/
theorem C8_witness :
    _compute_display_levels 25 = COLOR_YELLOW ∧
    _compute_display_levels 201 = COLOR_OFF ∧ _compute_buzzer_levels 201 = 0 :=
  ⟨(C8_tier_boundary_anchors 25).2.1 rfl,
   (C8_tier_boundary_anchors 201).2.2.2.2.2.2 (Or.inl (by decide))⟩

/-- C3: on a new-measurement fire while paused (no pending button duration),
the live display and the buzzer receive the distance and are set active
exactly when the distance is strictly below `WARNING_MIN_CM / 2` = 12 cm;
otherwise both are set inactive and the distance is not published (their
`distance_cm` and new-output flags are untouched). -/
theorem C3_pause_danger_override (u : fsm_urbanite_t)
    (hdur : fsm_button_get_duration u.p_fsm_button = 0)
    (hp : u.is_paused = true) :
    ((WARNING_MIN_CM / 2).toNat = 12) ∧
    (u.is_rear = false → u.current_state = MEASURE_FRONT →
      u.p_fsm_ultrasound_front.new_measurement = true →
      ((u.p_fsm_ultrasound_front.distance_cm < (WARNING_MIN_CM / 2).toNat →
        (fsm_urbanite_fire u).p_fsm_display_front.status = true ∧
        (fsm_urbanite_fire u).p_fsm_display_front.distance_cm =
          (u.p_fsm_ultrasound_front.distance_cm : Int) ∧
        (fsm_urbanite_fire u).p_fsm_buzzer.status = true ∧
        (fsm_urbanite_fire u).p_fsm_buzzer.distance_cm =
          (u.p_fsm_ultrasound_front.distance_cm : Int)) ∧
       (¬ u.p_fsm_ultrasound_front.distance_cm < (WARNING_MIN_CM / 2).toNat →
        (fsm_urbanite_fire u).p_fsm_display_front.status = false ∧
        (fsm_urbanite_fire u).p_fsm_buzzer.status = false ∧
        (fsm_urbanite_fire u).p_fsm_display_front.distance_cm =
          u.p_fsm_display_front.distance_cm ∧
        (fsm_urbanite_fire u).p_fsm_display_front.new_color =
          u.p_fsm_display_front.new_color ∧
        (fsm_urbanite_fire u).p_fsm_buzzer.distance_cm =
          u.p_fsm_buzzer.distance_cm ∧
        (fsm_urbanite_fire u).p_fsm_buzzer.new_sound =
          u.p_fsm_buzzer.new_sound))) ∧
    (u.is_rear = true → u.current_state = MEASURE_REAR →
      u.p_fsm_ultrasound_rear.new_measurement = true →
      ((u.p_fsm_ultrasound_rear.distance_cm < (WARNING_MIN_CM / 2).toNat →
        (fsm_urbanite_fire u).p_fsm_display_rear.status = true ∧
        (fsm_urbanite_fire u).p_fsm_display_rear.distance_cm =
          (u.p_fsm_ultrasound_rear.distance_cm : Int) ∧
        (fsm_urbanite_fire u).p_fsm_buzzer.status = true ∧
        (fsm_urbanite_fire u).p_fsm_buzzer.distance_cm =
          (u.p_fsm_ultrasound_rear.distance_cm : Int)) ∧
       (¬ u.p_fsm_ultrasound_rear.distance_cm < (WARNING_MIN_CM / 2).toNat →
        (fsm_urbanite_fire u).p_fsm_display_rear.status = false ∧
        (fsm_urbanite_fire u).p_fsm_buzzer.status = false ∧
        (fsm_urbanite_fire u).p_fsm_display_rear.distance_cm =
          u.p_fsm_display_rear.distance_cm ∧
        (fsm_urbanite_fire u).p_fsm_display_rear.new_color =
          u.p_fsm_display_rear.new_color ∧
        (fsm_urbanite_fire u).p_fsm_buzzer.distance_cm =
          u.p_fsm_buzzer.distance_cm ∧
        (fsm_urbanite_fire u).p_fsm_buzzer.new_sound =
          u.p_fsm_buzzer.new_sound))) := by
  have hoff : fsm_urbanite.check_off u = false := by
    simp [fsm_urbanite.check_off, fsm_urbanite.check_on, hdur]
  have hpause : fsm_urbanite.check_pause u = false := by
    simp [fsm_urbanite.check_pause, hdur]
  refine ⟨by decide, ?_, ?_⟩
  · intro hrear hstate hnm
    have hnm' : fsm_urbanite.check_new_measure u = true := by
      simp [fsm_urbanite.check_new_measure, hrear,
        fsm_ultrasound_get_new_measurement_ready, hnm]
    have hfire : fsm_urbanite_fire u =
        { fsm_urbanite.do_distance u with current_state := MEASURE_FRONT } := by
      simp [fsm_urbanite_fire, fsm_fire, fsm_trans_urbanite, hstate, hoff,
        hpause, hnm', OFF, MEASURE_FRONT, MEASURE_REAR, SLEEP_WHILE_OFF,
        SLEEP_WHILE_ON_FRONT, SLEEP_WHILE_ON_REAR]
    constructor
    · intro hd
      rw [hfire]
      simp [fsm_urbanite.do_distance, hrear, hp, hd,
        fsm_ultrasound_get_distance, fsm_display_set_status,
        fsm_display_set_distance, fsm_buzzer_set_status,
        fsm_buzzer_set_distance]
    · intro hd
      rw [hfire]
      simp [fsm_urbanite.do_distance, hrear, hp, hd,
        fsm_ultrasound_get_distance, fsm_display_set_status,
        fsm_display_set_distance, fsm_buzzer_set_status,
        fsm_buzzer_set_distance]
  · intro hrear hstate hnm
    have hnm' : fsm_urbanite.check_new_measure u = true := by
      simp [fsm_urbanite.check_new_measure, hrear,
        fsm_ultrasound_get_new_measurement_ready, hnm]
    have hfire : fsm_urbanite_fire u =
        { fsm_urbanite.do_distance u with current_state := MEASURE_REAR } := by
      simp [fsm_urbanite_fire, fsm_fire, fsm_trans_urbanite, hstate, hoff,
        hpause, hnm', OFF, MEASURE_FRONT, MEASURE_REAR, SLEEP_WHILE_OFF,
        SLEEP_WHILE_ON_FRONT, SLEEP_WHILE_ON_REAR]
    constructor
    · intro hd
      rw [hfire]
      simp [fsm_urbanite.do_distance, hrear, hp, hd,
        fsm_ultrasound_get_distance, fsm_display_set_status,
        fsm_display_set_distance, fsm_buzzer_set_status,
        fsm_buzzer_set_distance]
    · intro hd
      rw [hfire]
      simp [fsm_urbanite.do_distance, hrear, hp, hd,
        fsm_ultrasound_get_distance, fsm_display_set_status,
        fsm_display_set_distance, fsm_buzzer_set_status,
        fsm_buzzer_set_distance]

/-- Witness for C3: paused, front distance 10 cm (< 12) forces display and
buzzer active; paused, front distance 20 cm leaves both inactive. -/
theorem C3_witness :
    ((fsm_urbanite_fire (C3_paused_front 10)).p_fsm_display_front.status = true ∧
     (fsm_urbanite_fire (C3_paused_front 10)).p_fsm_buzzer.status = true) ∧
    ((fsm_urbanite_fire (C3_paused_front 20)).p_fsm_display_front.status = false ∧
     (fsm_urbanite_fire (C3_paused_front 20)).p_fsm_buzzer.status = false) := by
  have h10 := (C3_pause_danger_override (C3_paused_front 10) rfl rfl).2.1
    rfl rfl rfl
  have h20 := (C3_pause_danger_override (C3_paused_front 20) rfl rfl).2.1
    rfl rfl rfl
  have a10 := h10.1 (by decide)
  have a20 := h20.2 (by decide)
  exact ⟨⟨a10.1, a10.2.2.1⟩, ⟨a20.1, a20.2.1⟩⟩

/-- C5: with ordered thresholds `0 < pause < change < on_off`, in
`MEASURE_FRONT` or `MEASURE_REAR`: a completed press of exactly the pause
threshold fires the pause/resume toggle (state kept, `is_paused` flipped,
duration consumed); a press one unit below the pause threshold (still
positive, with no measurement pending) fires nothing at all; and a press at
or above the on/off threshold — which then also exceeds the change
threshold — fires the on/off transition to `OFF`, not the front/rear
change. -/
theorem C5_press_duration_tiers (u : fsm_urbanite_t)
    (hstate : u.current_state = MEASURE_FRONT ∨ u.current_state = MEASURE_REAR)
    (h1 : 0 < u.pause_display_time_ms)
    (h2 : u.pause_display_time_ms < u.change_press_time_ms)
    (h3 : u.change_press_time_ms < u.on_off_press_time_ms) :
    (fsm_button_get_duration u.p_fsm_button = u.pause_display_time_ms →
      (fsm_urbanite_fire u).current_state = u.current_state ∧
      (fsm_urbanite_fire u).is_paused = !u.is_paused ∧
      (fsm_urbanite_fire u).p_fsm_button.duration = 0) ∧
    (fsm_button_get_duration u.p_fsm_button + 1 = u.pause_display_time_ms →
      0 < fsm_button_get_duration u.p_fsm_button →
      fsm_urbanite.check_new_measure u = false →
      fsm_urbanite_fire u = u) ∧
    (u.on_off_press_time_ms ≤ fsm_button_get_duration u.p_fsm_button →
      u.change_press_time_ms ≤ fsm_button_get_duration u.p_fsm_button ∧
      (fsm_urbanite_fire u).current_state = OFF) := by
  simp only [fsm_button_get_duration]
  refine ⟨?_, ?_, ?_⟩
  · intro hd
    have hoff : fsm_urbanite.check_off u = false := by
      simp only [fsm_urbanite.check_off, fsm_urbanite.check_on,
        fsm_button_get_duration, decide_eq_false_iff_not]
      omega
    have hpause : fsm_urbanite.check_pause u = true := by
      simp only [fsm_urbanite.check_pause, fsm_button_get_duration,
        decide_eq_true_eq]
      omega
    rcases hstate with hstate | hstate
    all_goals
      have hfire : fsm_urbanite_fire u =
          { fsm_urbanite.do_pause u with current_state := u.current_state } := by
        simp [fsm_urbanite_fire, fsm_fire, fsm_trans_urbanite, hstate, hoff,
          hpause, OFF, MEASURE_FRONT, MEASURE_REAR, SLEEP_WHILE_OFF,
          SLEEP_WHILE_ON_FRONT, SLEEP_WHILE_ON_REAR]
    all_goals
      rw [hfire]
      by_cases hr : u.is_rear <;>
        simp [fsm_urbanite.do_pause, hr, fsm_button_reset_duration,
          fsm_display_set_status, fsm_buzzer_set_status]
  · intro hd h0 hnm
    have hoff : fsm_urbanite.check_off u = false := by
      simp only [fsm_urbanite.check_off, fsm_urbanite.check_on,
        fsm_button_get_duration, decide_eq_false_iff_not]
      omega
    have hpause : fsm_urbanite.check_pause u = false := by
      simp only [fsm_urbanite.check_pause, fsm_button_get_duration,
        decide_eq_false_iff_not]
      omega
    have hchange : fsm_urbanite.check_front u = false := by
      simp only [fsm_urbanite.check_front, fsm_button_get_duration,
        decide_eq_false_iff_not]
      omega
    rcases hstate with hstate | hstate <;>
      simp [fsm_urbanite_fire, fsm_fire, fsm_trans_urbanite, hstate, hoff,
        hpause, hchange, hnm, fsm_urbanite.check_rear,
        fsm_urbanite.check_no_activity, OFF, MEASURE_FRONT, MEASURE_REAR,
        SLEEP_WHILE_OFF, SLEEP_WHILE_ON_FRONT, SLEEP_WHILE_ON_REAR]
  · intro hd
    have hoff : fsm_urbanite.check_off u = true := by
      simp only [fsm_urbanite.check_off, fsm_urbanite.check_on,
        fsm_button_get_duration, decide_eq_true_eq]
      omega
    refine ⟨by omega, ?_⟩
    rcases hstate with hstate | hstate <;>
      simp [fsm_urbanite_fire, fsm_fire, fsm_trans_urbanite, hstate, hoff,
        OFF, MEASURE_FRONT, MEASURE_REAR, SLEEP_WHILE_OFF,
        SLEEP_WHILE_ON_FRONT, SLEEP_WHILE_ON_REAR]

/-- Witness for C5 with the `main.c` thresholds 3000/1000/500 and presses of
500 ms (pause fires), 499 ms (nothing fires) and 3100 ms (on/off wins). -/
theorem C5_witness :
    ((fsm_urbanite_fire (C5_measuring 500)).current_state =
       (C5_measuring 500).current_state ∧
     (fsm_urbanite_fire (C5_measuring 500)).is_paused =
       !(C5_measuring 500).is_paused ∧
     (fsm_urbanite_fire (C5_measuring 500)).p_fsm_button.duration = 0) ∧
    fsm_urbanite_fire (C5_measuring 499) = C5_measuring 499 ∧
    ((C5_measuring 3100).change_press_time_ms ≤
       fsm_button_get_duration (C5_measuring 3100).p_fsm_button ∧
     (fsm_urbanite_fire (C5_measuring 3100)).current_state = OFF) :=
  ⟨(C5_press_duration_tiers (C5_measuring 500) (Or.inl rfl) (by decide)
      (by decide) (by decide)).1 rfl,
   (C5_press_duration_tiers (C5_measuring 499) (Or.inl rfl) (by decide)
      (by decide) (by decide)).2.1 rfl (by decide) (by decide),
   (C5_press_duration_tiers (C5_measuring 3100) (Or.inl rfl) (by decide)
      (by decide) (by decide)).2.2 (by decide)⟩

end Urbanite
